import Mathlib

/-!
Shallow embedding of the PedMed pharmacokinetic engine (src/script.js):
creatinine-clearance estimation (`calculateClearance`), the one-compartment
simulation and dose evaluation (`simulatePK`), and the therapeutic-range
table (`therapeuticRanges`).  JavaScript numbers are modelled as real
numbers; a JavaScript division whose denominator is zero yields a
non-finite value (Infinity or NaN), modelled by `none` in `jsDiv`.
A JavaScript variable that is read while still `undefined` raises a
TypeError, modelled by the `JsError.typeError` constructor.
-/

noncomputable section

inductive Antibiotic where
  | vancomycin_intermittent
  | vancomycin_continuous
  | gentamicin
  | amikacin
  | tobramycin
deriving DecidableEq

inductive AgeUnit where
  | days
  | months
  | years
deriving DecidableEq

inductive LevelType where
  | peak
  | trough
  | random
deriving DecidableEq

/-- Runtime failures of the JavaScript engine: an explicit `throw new Error(...)`
(`invalidInput`) or an implicit TypeError from touching an undefined variable. -/
inductive JsError where
  | invalidInput (msg : String)
  | typeError (msg : String)
deriving DecidableEq

/-- One entry of the `therapeuticRanges` object; fields absent from the
JavaScript object literal are `none`. -/
structure DrugRanges where
  peak : Option (ℝ × ℝ)
  trough : Option (ℝ × ℝ)
  steady : Option (ℝ × ℝ)
  auc : Option (ℝ × ℝ)

/-- The constant `therapeuticRanges` table (script.js lines 11-17). -/
def therapeuticRanges : Antibiotic → DrugRanges
  | .vancomycin_intermittent =>
      { peak := some (25, 40), trough := some (10, 20), steady := none, auc := some (400, 600) }
  | .vancomycin_continuous =>
      { peak := none, trough := none, steady := some (20, 25), auc := some (400, 600) }
  | .gentamicin =>
      { peak := some (5, 10), trough := some (0, 2), steady := none, auc := none }
  | .amikacin =>
      { peak := some (20, 30), trough := some (0, 5), steady := none, auc := none }
  | .tobramycin =>
      { peak := some (5, 10), trough := some (0, 2), steady := none, auc := none }

/-- `calculateClearance` (script.js lines 20-40).  Throws when weight or
creatinine is not positive; otherwise picks the pediatric Schwartz branch or
the adult Cockcroft-Gault branch and clamps the result at 0. -/
def calculateClearance (weight ageValue : ℝ) (ageUnit : AgeUnit) (creatinine : ℝ) :
    Except JsError ℝ :=
  if weight ≤ 0 ∨ creatinine ≤ 0 then
    .error (.invalidInput "Peso e creatinina devem ser maiores que 0.")
  else
    let ageInDays : ℝ :=
      match ageUnit with
      | .days => ageValue
      | .months => ageValue * 30.42
      | .years => ageValue * 365.25
    let crCl : ℝ :=
      if ageInDays ≤ 28 ∨ ageUnit = .months ∨ (ageUnit = .years ∧ ageValue < 18) then
        let k : ℝ :=
          if ageInDays ≤ 7 then 0.33
          else if ageInDays ≤ 28 then 0.45
          else if ageUnit = .months then 0.55
          else 0.413
        let height : ℝ := 50 + ageValue *
          (match ageUnit with
           | .years => 12
           | .months => 1
           | .days => 0.1)
        k * height / creatinine
      else
        let ageYears : ℝ :=
          match ageUnit with
          | .years => ageValue
          | .months => ageValue / 12
          | .days => ageValue / 365.25
        (140 - ageYears) * weight / (72 * creatinine)
    .ok (max 0 crCl)

/-- Normalization of clearance to L/h/kg (script.js line 48). -/
def normCrCl (clearance weight : ℝ) : ℝ :=
  clearance / 1000 * 60 / weight

/-- The per-antibiotic raw parameters computed by the `switch` statement of
`simulatePK` (script.js lines 50-87).  `t1_2` is an `Option` because the
JavaScript variable `t1_2` is declared but never assigned on the
`vancomycin_continuous` path, i.e. it is still `undefined` there. -/
structure PKParams where
  Vd : ℝ
  Ke : ℝ
  t1_2 : Option ℝ
  infusionTime : ℝ
  Cmax : ℝ
  Cmin : ℝ
  auc : ℝ

/-- The `switch (antibiotic)` block of `simulatePK` (script.js lines 50-87),
taking the already-normalized clearance `crCl` in L/h/kg. -/
def pkSwitch (antibiotic : Antibiotic) (dose interval weight crCl : ℝ) : PKParams :=
  match antibiotic with
  | .vancomycin_intermittent =>
      let Vd : ℝ := 0.7
      let Ke : ℝ := crCl * 0.00083 + 0.0044
      let infusionTime : ℝ := 1
      let Cmax : ℝ := dose / weight / (Vd * (1 - Real.exp (-Ke * infusionTime)))
      { Vd := Vd, Ke := Ke, t1_2 := some (0.693 / Ke), infusionTime := infusionTime,
        Cmax := Cmax, Cmin := Cmax * Real.exp (-Ke * (interval - infusionTime)),
        auc := dose / weight / interval / (Ke * Vd) * 24 }
  | .vancomycin_continuous =>
      let Vd : ℝ := 0.7
      let Ke : ℝ := crCl * 0.00083 + 0.0044
      let auc : ℝ := dose / weight / 24 / (Ke * Vd) * 24
      { Vd := Vd, Ke := Ke, t1_2 := none, infusionTime := 24,
        Cmax := auc / 24, Cmin := auc / 24, auc := auc }
  | .gentamicin | .tobramycin =>
      let Vd : ℝ := 0.25
      let Ke : ℝ := crCl * 0.0029 + 0.01
      let infusionTime : ℝ := 0.5
      let Cmax : ℝ := dose / weight / (Vd * (1 - Real.exp (-Ke * infusionTime)))
      { Vd := Vd, Ke := Ke, t1_2 := some (0.693 / Ke), infusionTime := infusionTime,
        Cmax := Cmax, Cmin := Cmax * Real.exp (-Ke * (interval - infusionTime)),
        auc := dose / weight / interval / (Ke * Vd) * 24 }
  | .amikacin =>
      let Vd : ℝ := 0.25
      let Ke : ℝ := crCl * 0.0029 + 0.01
      let infusionTime : ℝ := 0.5
      let Cmax : ℝ := dose / weight / (Vd * (1 - Real.exp (-Ke * infusionTime)))
      { Vd := Vd, Ke := Ke, t1_2 := some (0.693 / Ke), infusionTime := infusionTime,
        Cmax := Cmax, Cmin := Cmax * Real.exp (-Ke * (interval - infusionTime)),
        auc := dose / weight / interval / (Ke * Vd) * 24 }

/-- JavaScript division: a zero denominator yields a non-finite number
(Infinity, or NaN when the numerator is also zero), modelled by `none`. -/
def jsDiv (a b : ℝ) : Option ℝ :=
  if b = 0 then none else some (a / b)

/-- The sampled curve times `Array.from({length: Math.ceil(interval*2)}, (_, i) => i/2)`
(script.js line 90). -/
def curveTimes (interval : ℝ) : List ℝ :=
  (List.range (⌈interval * 2⌉).toNat).map (fun i : ℕ => (i : ℝ) / 2)

/-- The concentration sampled at time `t` (script.js lines 91-97).  During the
infusion the code divides by `Vd * (1 - e^(-Ke*t))`, which is zero at `t = 0`. -/
def concAt (p : PKParams) (dose weight t : ℝ) : Option ℝ :=
  if t ≤ p.infusionTime then
    jsDiv (dose / weight) (p.Vd * (1 - Real.exp (-p.Ke * t)))
  else
    some (p.Cmax * Real.exp (-p.Ke * (t - p.infusionTime)))

/-- The dose-evaluation block of `simulatePK` (script.js lines 99-139).
Returns the `(status, suggestion)` pair.  `Math.round` is written `round`,
which agrees with JavaScript (half-up).  For the non-continuous non-vancomycin
drugs the code reads `therapeuticRanges[antibiotic].peak/.trough`, always
present for those drugs; `getD (0, 0)` stands for the JavaScript `undefined`
that could only arise on the (unreachable there) continuous path. -/
def evalDosing (antibiotic : Antibiotic) (dose interval weight : ℝ) (p : PKParams) :
    String × String :=
  if antibiotic = .vancomycin_continuous then
    if p.auc < 400 then
      ("Insuficiente",
        "Aumentar dose diária para " ++ toString (round (dose * (400 / p.auc))) ++ " mg/dia")
    else if p.auc > 600 then
      ("Excessiva",
        "Reduzir dose diária para " ++ toString (round (dose * (600 / p.auc))) ++ " mg/dia")
    else if p.Cmax < 20 ∨ p.Cmax > 25 then
      ("Fora da faixa estável",
        "Ajustar dose para " ++ toString (round (20 * p.Vd * p.Ke * weight * 24)) ++
          " mg/dia para atingir 20–25 µg/mL")
    else
      ("Adequada", "")
  else
    let targetPeak := ((therapeuticRanges antibiotic).peak).getD (0, 0)
    let targetTrough := ((therapeuticRanges antibiotic).trough).getD (0, 0)
    if antibiotic = .vancomycin_intermittent then
      if p.auc < 400 ∨ p.Cmin < 10 then
        ("Insuficiente",
          "Aumentar dose para " ++ toString (round (dose * (400 / p.auc))) ++
            " mg ou reduzir intervalo para " ++ toString (round (interval * 0.8)) ++ " h")
      else if p.auc > 600 ∨ p.Cmin > 20 then
        ("Excessiva",
          "Reduzir dose para " ++ toString (round (dose * (600 / p.auc))) ++
            " mg ou aumentar intervalo para " ++ toString (round (interval * 1.2)) ++ " h")
      else
        ("Adequada", "")
    else
      if p.Cmax < targetPeak.1 ∨ p.Cmin < targetTrough.1 then
        ("Insuficiente",
          "Aumentar dose para " ++ toString (round (dose * (targetPeak.2 / p.Cmax))) ++
            " mg ou reduzir intervalo para " ++ toString (round (interval * 0.8)) ++ " h")
      else if p.Cmax > targetPeak.2 ∨ p.Cmin > targetTrough.2 then
        ("Excessiva",
          "Reduzir dose para " ++ toString (round (dose * (targetPeak.1 / p.Cmax))) ++
            " mg ou aumentar intervalo para " ++ toString (round (interval * 1.2)) ++ " h")
      else
        ("Adequada", "")

/-- The measured-level overlay (script.js lines 141-151).  `level` and
`levelType` are truthy when present (and, for `level`, nonzero).  In
JavaScript `randomTime >= 0` coerces a `null` `randomTime` to 0, so the
condition holds, but then `measuredTime = randomTime` is itself `null` and
the final `measuredTime !== null` guard skips the push; this is modelled by
`randomTime.getD 0` for the comparison and by propagating the `Option`. -/
def overlay (infusionTime interval : ℝ) (level : Option ℝ) (levelType : Option LevelType)
    (randomTime : Option ℝ) (tps : List ℝ) (cs : List (Option ℝ)) :
    List ℝ × List (Option ℝ) :=
  let measuredTime : Option ℝ :=
    match level, levelType with
    | some l, some lt =>
        if l = 0 then none
        else
          match lt with
          | .peak => some infusionTime
          | .trough => some (interval - 0.1)
          | .random => if randomTime.getD 0 ≥ 0 then randomTime else none
    | _, _ => none
  match measuredTime with
  | some mt => (tps ++ [mt], cs ++ [some (level.getD 0)])
  | none => (tps, cs)

/-- The object returned by `simulatePK` (script.js lines 153-162).  The
numeric fields carry the value printed by `toFixed(2)`. -/
structure PKResult where
  timePoints : List ℝ
  concentrations : List (Option ℝ)
  Cmax : ℝ
  Cmin : ℝ
  auc : ℝ
  t1_2 : ℝ
  status : String
  suggestion : String

/-- `x.toFixed(2)` modelled by the numeric value it prints: `x` rounded
(half-up) to hundredths. -/
def toFixed2 (x : ℝ) : ℝ :=
  (round (x * 100) : ℤ) / 100

/-- `simulatePK` (script.js lines 43-163).  Throws `InvalidInput` when dose or
interval is not positive; on the `vancomycin_continuous` path the JavaScript
variable `t1_2` is still `undefined` at the return statement, so
`t1_2.toFixed(2)` raises a TypeError, modelled by `JsError.typeError`. -/
def simulatePK (antibiotic : Antibiotic) (dose interval weight crCl : ℝ)
    (level : Option ℝ) (levelType : Option LevelType) (randomTime : Option ℝ) :
    Except JsError PKResult :=
  if dose ≤ 0 ∨ interval ≤ 0 then
    .error (.invalidInput "Dose e intervalo devem ser maiores que 0.")
  else
    let crCl2 := normCrCl crCl weight
    let p := pkSwitch antibiotic dose interval weight crCl2
    let tps := curveTimes interval
    let cs := tps.map (concAt p dose weight)
    let ss := evalDosing antibiotic dose interval weight p
    let curves := overlay p.infusionTime interval level levelType randomTime tps cs
    match p.t1_2 with
    | none => .error (.typeError "TypeError: toFixed of undefined")
    | some t =>
        .ok { timePoints := curves.1, concentrations := curves.2,
              Cmax := toFixed2 p.Cmax, Cmin := toFixed2 p.Cmin,
              auc := toFixed2 p.auc, t1_2 := toFixed2 t,
              status := ss.1, suggestion := ss.2 }

/-! ### Spec-side formulas

These definitions transcribe the formulas as the specification states them,
to be compared with the embedded code. -/

/-- Spec: crCl_Lph_kg = (clearance_mL_per_min/1000)×60/weight. -/
def specCrCl (clearance weight : ℝ) : ℝ :=
  clearance / 1000 * 60 / weight

/-- Spec: Ke for the vancomycin variants, crCl×0.00083 + 0.0044. -/
def specKeVanc (crCl : ℝ) : ℝ :=
  crCl * 0.00083 + 0.0044

/-- Spec: Ke for the aminoglycosides, crCl×0.0029 + 0.01. -/
def specKeAmino (crCl : ℝ) : ℝ :=
  crCl * 0.0029 + 0.01

/-- Spec: Cmax = (dose/weight) / (Vd×(1−e^(−Ke×infusionTime))). -/
def specCmax (dose weight Vd Ke infusionTime : ℝ) : ℝ :=
  dose / weight / (Vd * (1 - Real.exp (-Ke * infusionTime)))

/-- Spec: Cmin = Cmax × e^(−Ke×(interval−infusionTime)). -/
def specCmin (Cmax Ke interval infusionTime : ℝ) : ℝ :=
  Cmax * Real.exp (-Ke * (interval - infusionTime))

/-- Spec: AUC = (dose/weight/interval)/(Ke×Vd)×24 for intermittent dosing. -/
def specAucIntermittent (dose weight interval Ke Vd : ℝ) : ℝ :=
  dose / weight / interval / (Ke * Vd) * 24

/-- Spec: AUC = (dose/weight/24)/(Ke×Vd)×24 for continuous vancomycin. -/
def specAucContinuous (dose weight Ke Vd : ℝ) : ℝ :=
  dose / weight / 24 / (Ke * Vd) * 24

/-! ### Helper lemmas -/

/-- A string with a nonempty left part is nonempty. -/
theorem append_ne_empty (a b : String) (h : a ≠ "") : a ++ b ≠ "" := by
  intro hab
  apply h
  have h2 := congrArg String.length hab
  have h0 : ("" : String).length = 0 := rfl
  simp only [String.length_append, h0] at h2
  have ha : a.length = 0 := by omega
  exact String.ext (List.length_eq_zero.mp ha)

theorem curveTimes_getElem (interval : ℝ) (i : ℕ) :
    (curveTimes interval)[i]? =
      if i < (⌈interval * 2⌉).toNat then some ((i : ℝ) / 2) else none := by
  unfold curveTimes
  rw [List.getElem?_map]
  by_cases h : i < (⌈interval * 2⌉).toNat
  · rw [if_pos h, List.getElem?_range h]
    rfl
  · rw [if_neg h, List.getElem?_eq_none (by simpa using Nat.le_of_not_lt h)]
    rfl

theorem curveTimes_pairwise (interval : ℝ) :
    (curveTimes interval).Pairwise (· < ·) := by
  unfold curveTimes
  refine List.Pairwise.map (fun i : ℕ => (i : ℝ) / 2) ?_
    (List.pairwise_lt_range _)
  intro a b hab
  have hc : (a : ℝ) < b := Nat.cast_lt.mpr hab
  linarith

/-- The Schwartz coefficient chain of the code, with its second test `x ≤ 28`
written as the claim's `7 < x ∧ x ≤ 28` (equivalent under first-match). -/
theorem k_selection_eq (x r : ℝ) :
    (if x ≤ 7 then (0.33:ℝ) else if x ≤ 28 then 0.45 else r) =
      (if x ≤ 7 then (0.33:ℝ) else if 7 < x ∧ x ≤ 28 then 0.45 else r) := by
  by_cases h1 : x ≤ 7
  · rw [if_pos h1, if_pos h1]
  · rw [if_neg h1, if_neg h1]
    by_cases h2 : x ≤ 28
    · rw [if_pos h2, if_pos ⟨by linarith [not_le.mp h1], h2⟩]
    · rw [if_neg h2, if_neg (fun h => h2 h.2)]

/-- The overlay step never breaks the one-to-one pairing of times and
concentrations. -/
theorem overlay_length (inf interval : ℝ) (lvl : Option ℝ) (lt : Option LevelType)
    (rt : Option ℝ) (tps : List ℝ) (cs : List (Option ℝ)) (h : cs.length = tps.length) :
    (overlay inf interval lvl lt rt tps cs).2.length =
      (overlay inf interval lvl lt rt tps cs).1.length := by
  unfold overlay
  dsimp only
  split <;> simp [h]

/-! ### Claims -/

/-- C1: for positive weight, dose and interval and nonnegative clearance,
`simulatePK` first normalizes clearance to crCl = (clearance/1000)×60/weight
(`normCrCl`), then the switch block computes, for vancomycin_intermittent
(Vd = 0.7, infusionTime = 1, Ke = crCl×0.00083+0.0044) and for
gentamicin/tobramycin/amikacin (Vd = 0.25, infusionTime = 0.5,
Ke = crCl×0.0029+0.01), Cmax = (dose/weight)/(Vd×(1−e^(−Ke×infusionTime))),
Cmin = Cmax×e^(−Ke×(interval−infusionTime)), AUC = (dose/weight/interval)/(Ke×Vd)×24;
and for vancomycin_continuous (Vd = 0.7, same Ke formula)
AUC = (dose/weight/24)/(Ke×Vd)×24 with Cmax = Cmin = AUC/24. -/
theorem pk_formulas_match_spec (dose interval weight clearance : ℝ)
    (hw : 0 < weight) (hd : 0 < dose) (hi : 0 < interval) (hc : 0 ≤ clearance) :
    normCrCl clearance weight = specCrCl clearance weight ∧
    (let c := specCrCl clearance weight
     let pVI := pkSwitch .vancomycin_intermittent dose interval weight c
     pVI.Vd = 0.7 ∧ pVI.infusionTime = 1 ∧ pVI.Ke = specKeVanc c ∧
       pVI.Cmax = specCmax dose weight 0.7 (specKeVanc c) 1 ∧
       pVI.Cmin = specCmin (specCmax dose weight 0.7 (specKeVanc c) 1) (specKeVanc c) interval 1 ∧
       pVI.auc = specAucIntermittent dose weight interval (specKeVanc c) 0.7) ∧
    (let c := specCrCl clearance weight
     ∀ a : Antibiotic, (a = .gentamicin ∨ a = .tobramycin ∨ a = .amikacin) →
       let pA := pkSwitch a dose interval weight c
       pA.Vd = 0.25 ∧ pA.infusionTime = 0.5 ∧ pA.Ke = specKeAmino c ∧
         pA.Cmax = specCmax dose weight 0.25 (specKeAmino c) 0.5 ∧
         pA.Cmin = specCmin (specCmax dose weight 0.25 (specKeAmino c) 0.5) (specKeAmino c)
           interval 0.5 ∧
         pA.auc = specAucIntermittent dose weight interval (specKeAmino c) 0.25) ∧
    (let c := specCrCl clearance weight
     let pVC := pkSwitch .vancomycin_continuous dose interval weight c
     pVC.Vd = 0.7 ∧ pVC.Ke = specKeVanc c ∧
       pVC.auc = specAucContinuous dose weight (specKeVanc c) 0.7 ∧
       pVC.Cmax = specAucContinuous dose weight (specKeVanc c) 0.7 / 24 ∧
       pVC.Cmin = specAucContinuous dose weight (specKeVanc c) 0.7 / 24) := by
  refine ⟨rfl, ⟨rfl, rfl, rfl, rfl, rfl, rfl⟩, ?_, ⟨rfl, rfl, rfl, rfl, rfl⟩⟩
  intro c a ha
  rcases ha with h | h | h <;> subst h <;>
    exact ⟨rfl, rfl, rfl, rfl, rfl, rfl⟩

/-- C3: for valid inputs and a non-continuous antibiotic, the status and
suggestion returned by `simulatePK` follow the first-match decision table:
for vancomycin_intermittent, Insuficiente iff auc<400 or Cmin<10 (suggesting
dose×(400/auc) or interval×0.8), else Excessiva iff auc>600 or Cmin>20
(suggesting dose×(600/auc) or interval×1.2), else Adequada; for
gentamicin/tobramycin (peak [5,10], trough [0,2]) and amikacin (peak [20,30],
trough [0,5]), Insuficiente iff Cmax<peakLow or Cmin<troughLow (suggesting
dose×(peakHigh/Cmax) or interval×0.8), else Excessiva iff Cmax>peakHigh or
Cmin>troughHigh (suggesting dose×(peakLow/Cmax) or interval×1.2), else
Adequada; all suggested doses and intervals rounded to the nearest integer. -/
theorem dose_evaluation_table_noncontinuous
    (dose interval weight clearance : ℝ) (lvl : Option ℝ) (lt : Option LevelType)
    (rt : Option ℝ) (hd : 0 < dose) (hi : 0 < interval) :
    ((simulatePK .vancomycin_intermittent dose interval weight clearance lvl lt rt).map
        (fun r => (r.status, r.suggestion)) =
      .ok (let p := pkSwitch .vancomycin_intermittent dose interval weight
                      (normCrCl clearance weight)
           if p.auc < 400 ∨ p.Cmin < 10 then
             ("Insuficiente",
               "Aumentar dose para " ++ toString (round (dose * (400 / p.auc))) ++
                 " mg ou reduzir intervalo para " ++ toString (round (interval * 0.8)) ++ " h")
           else if p.auc > 600 ∨ p.Cmin > 20 then
             ("Excessiva",
               "Reduzir dose para " ++ toString (round (dose * (600 / p.auc))) ++
                 " mg ou aumentar intervalo para " ++ toString (round (interval * 1.2)) ++ " h")
           else ("Adequada", ""))) ∧
    ((simulatePK .gentamicin dose interval weight clearance lvl lt rt).map
        (fun r => (r.status, r.suggestion)) =
      .ok (let p := pkSwitch .gentamicin dose interval weight (normCrCl clearance weight)
           if p.Cmax < 5 ∨ p.Cmin < 0 then
             ("Insuficiente",
               "Aumentar dose para " ++ toString (round (dose * (10 / p.Cmax))) ++
                 " mg ou reduzir intervalo para " ++ toString (round (interval * 0.8)) ++ " h")
           else if p.Cmax > 10 ∨ p.Cmin > 2 then
             ("Excessiva",
               "Reduzir dose para " ++ toString (round (dose * (5 / p.Cmax))) ++
                 " mg ou aumentar intervalo para " ++ toString (round (interval * 1.2)) ++ " h")
           else ("Adequada", ""))) ∧
    ((simulatePK .tobramycin dose interval weight clearance lvl lt rt).map
        (fun r => (r.status, r.suggestion)) =
      .ok (let p := pkSwitch .tobramycin dose interval weight (normCrCl clearance weight)
           if p.Cmax < 5 ∨ p.Cmin < 0 then
             ("Insuficiente",
               "Aumentar dose para " ++ toString (round (dose * (10 / p.Cmax))) ++
                 " mg ou reduzir intervalo para " ++ toString (round (interval * 0.8)) ++ " h")
           else if p.Cmax > 10 ∨ p.Cmin > 2 then
             ("Excessiva",
               "Reduzir dose para " ++ toString (round (dose * (5 / p.Cmax))) ++
                 " mg ou aumentar intervalo para " ++ toString (round (interval * 1.2)) ++ " h")
           else ("Adequada", ""))) ∧
    ((simulatePK .amikacin dose interval weight clearance lvl lt rt).map
        (fun r => (r.status, r.suggestion)) =
      .ok (let p := pkSwitch .amikacin dose interval weight (normCrCl clearance weight)
           if p.Cmax < 20 ∨ p.Cmin < 0 then
             ("Insuficiente",
               "Aumentar dose para " ++ toString (round (dose * (30 / p.Cmax))) ++
                 " mg ou reduzir intervalo para " ++ toString (round (interval * 0.8)) ++ " h")
           else if p.Cmax > 30 ∨ p.Cmin > 5 then
             ("Excessiva",
               "Reduzir dose para " ++ toString (round (dose * (20 / p.Cmax))) ++
                 " mg ou aumentar intervalo para " ++ toString (round (interval * 1.2)) ++ " h")
           else ("Adequada", ""))) := by
  have hcond : ¬(dose ≤ 0 ∨ interval ≤ 0) := by
    push_neg
    exact ⟨hd, hi⟩
  refine ⟨?_, ?_, ?_, ?_⟩ <;>
    simp only [simulatePK, hcond, if_false, evalDosing, therapeuticRanges, pkSwitch,
      reduceCtorEq, Option.getD_some, Except.map, if_neg] <;>
    rfl

/-- C3 witness at dose=500, interval=8, weight=70, clearance=100 (gentamicin
conjunct). -/
theorem dose_evaluation_table_noncontinuous_witness :
    (0:ℝ) < 500 ∧ (0:ℝ) < 8 ∧
      ((simulatePK .gentamicin (500:ℝ) 8 70 100 none none none).map
          (fun r => (r.status, r.suggestion)) =
        .ok (let p := pkSwitch .gentamicin (500:ℝ) 8 70 (normCrCl 100 70)
             if p.Cmax < 5 ∨ p.Cmin < 0 then
               ("Insuficiente",
                 "Aumentar dose para " ++ toString (round ((500:ℝ) * (10 / p.Cmax))) ++
                   " mg ou reduzir intervalo para " ++ toString (round ((8:ℝ) * 0.8)) ++ " h")
             else if p.Cmax > 10 ∨ p.Cmin > 2 then
               ("Excessiva",
                 "Reduzir dose para " ++ toString (round ((500:ℝ) * (5 / p.Cmax))) ++
                   " mg ou aumentar intervalo para " ++ toString (round ((8:ℝ) * 1.2)) ++ " h")
             else ("Adequada", ""))) :=
  ⟨by norm_num, by norm_num,
    (dose_evaluation_table_noncontinuous 500 8 70 100 none none none
      (by norm_num) (by norm_num)).2.1⟩

/-- C4: for valid inputs with antibiotic vancomycin_continuous, the evaluation
block applies first-match branches in order: auc<400 → Insuficiente with
suggested daily dose round(dose×(400/auc)); else auc>600 → Excessiva with
round(dose×(600/auc)); else Cmax outside [20,25] → "Fora da faixa estável"
with suggested dose round(20×Vd×Ke×weight×24) mg/day; otherwise Adequada. -/
theorem dose_evaluation_table_continuous
    (dose interval weight clearance : ℝ)
    (hw : 0 < weight) (hd : 0 < dose) (hi : 0 < interval) (hc : 0 ≤ clearance) :
    evalDosing .vancomycin_continuous dose interval weight
        (pkSwitch .vancomycin_continuous dose interval weight (normCrCl clearance weight)) =
      (let p := pkSwitch .vancomycin_continuous dose interval weight
                  (normCrCl clearance weight)
       if p.auc < 400 then
         ("Insuficiente",
           "Aumentar dose diária para " ++ toString (round (dose * (400 / p.auc))) ++ " mg/dia")
       else if p.auc > 600 then
         ("Excessiva",
           "Reduzir dose diária para " ++ toString (round (dose * (600 / p.auc))) ++ " mg/dia")
       else if p.Cmax < 20 ∨ p.Cmax > 25 then
         ("Fora da faixa estável",
           "Ajustar dose para " ++ toString (round (20 * p.Vd * p.Ke * weight * 24)) ++
             " mg/dia para atingir 20–25 µg/mL")
       else ("Adequada", "")) := by
  simp only [evalDosing, eq_self_iff_true, if_true]

/-- C4 witness at dose=2000, interval=24, weight=70, clearance=100. -/
theorem dose_evaluation_table_continuous_witness :
    (0:ℝ) < 70 ∧ (0:ℝ) < 2000 ∧ (0:ℝ) < 24 ∧ (0:ℝ) ≤ 100 ∧
      evalDosing .vancomycin_continuous (2000:ℝ) 24 70
          (pkSwitch .vancomycin_continuous (2000:ℝ) 24 70 (normCrCl 100 70)) =
        (let p := pkSwitch .vancomycin_continuous (2000:ℝ) 24 70 (normCrCl 100 70)
         if p.auc < 400 then
           ("Insuficiente",
             "Aumentar dose diária para " ++ toString (round ((2000:ℝ) * (400 / p.auc))) ++
               " mg/dia")
         else if p.auc > 600 then
           ("Excessiva",
             "Reduzir dose diária para " ++ toString (round ((2000:ℝ) * (600 / p.auc))) ++
               " mg/dia")
         else if p.Cmax < 20 ∨ p.Cmax > 25 then
           ("Fora da faixa estável",
             "Ajustar dose para " ++ toString (round (20 * p.Vd * p.Ke * 70 * 24)) ++
               " mg/dia para atingir 20–25 µg/mL")
         else ("Adequada", "")) :=
  ⟨by norm_num, by norm_num, by norm_num, by norm_num,
    dose_evaluation_table_continuous 2000 24 70 100 (by norm_num) (by norm_num)
      (by norm_num) (by norm_num)⟩

/-- C10: for every antibiotic and any computed parameters, the evaluation
assigns a status among Insuficiente, Excessiva, Adequada, Fora da faixa
estável (never empty), and the suggestion is nonempty iff the status is not
Adequada. -/
theorem status_and_suggestion_invariant
    (antibiotic : Antibiotic) (dose interval weight : ℝ) (p : PKParams) :
    ((evalDosing antibiotic dose interval weight p).1 = "Insuficiente" ∨
      (evalDosing antibiotic dose interval weight p).1 = "Excessiva" ∨
      (evalDosing antibiotic dose interval weight p).1 = "Adequada" ∨
      (evalDosing antibiotic dose interval weight p).1 = "Fora da faixa estável") ∧
    ((evalDosing antibiotic dose interval weight p).2 ≠ "" ↔
      (evalDosing antibiotic dose interval weight p).1 ≠ "Adequada") := by
  unfold evalDosing
  dsimp only
  split_ifs <;> refine ⟨by simp, ?_⟩ <;> dsimp only <;>
    first
      | (apply iff_of_true <;> (repeat apply append_ne_empty) <;> decide)
      | (apply iff_of_false <;> simp)

/-- C5 (amended): for weight>0 and creatinine>0, `calculateClearance` takes
the pediatric Schwartz branch exactly when ageInDays ≤ 28, or ageUnit=months,
or (ageUnit=years and ageValue < 18), selecting k=0.33 if ageInDays ≤ 7,
k=0.45 if 7 < ageInDays ≤ 28, k=0.55 if ageUnit=months, else k=0.413, with
height = 50 + ageValue×(12 if years, 1 if months, 0.1 if days) and
clearance = k×height/creatinine; otherwise the adult Cockcroft-Gault branch
(140−ageYears)×weight/(72×creatinine); the result is clamped at 0.
Boundaries: ageUnit=years with ageValue=18 takes the adult branch;
ageInDays=28 takes the pediatric branch with k=0.45; ageInDays=29 with
ageUnit=days takes the adult branch, while ageInDays=29 with ageUnit=years
(ageValue = 29/365.25 < 18) takes the pediatric branch with k=0.413. -/
theorem clearance_branch_selection (weight ageValue : ℝ) (ageUnit : AgeUnit)
    (creatinine : ℝ) (hw : 0 < weight) (hc : 0 < creatinine) :
    (calculateClearance weight ageValue ageUnit creatinine =
      .ok (max 0 (
        let ageInDays : ℝ :=
          match ageUnit with
          | .days => ageValue
          | .months => ageValue * 30.42
          | .years => ageValue * 365.25
        if ageInDays ≤ 28 ∨ ageUnit = .months ∨ (ageUnit = .years ∧ ageValue < 18) then
          (if ageInDays ≤ 7 then 0.33
           else if 7 < ageInDays ∧ ageInDays ≤ 28 then 0.45
           else if ageUnit = .months then 0.55
           else 0.413) *
            (50 + ageValue *
              (match ageUnit with
               | .years => 12
               | .months => 1
               | .days => 0.1)) / creatinine
        else
          (140 -
            (match ageUnit with
             | .years => ageValue
             | .months => ageValue / 12
             | .days => ageValue / 365.25)) * weight / (72 * creatinine)))) ∧
    calculateClearance weight 18 .years creatinine =
      .ok (max 0 ((140 - 18) * weight / (72 * creatinine))) ∧
    calculateClearance weight 28 .days creatinine =
      .ok (max 0 (0.45 * (50 + 28 * 0.1) / creatinine)) ∧
    calculateClearance weight 29 .days creatinine =
      .ok (max 0 ((140 - 29 / 365.25) * weight / (72 * creatinine))) ∧
    calculateClearance weight (116 / 1461) .years creatinine =
      .ok (max 0 (0.413 * (50 + 116 / 1461 * 12) / creatinine)) := by
  have hcond : ¬(weight ≤ 0 ∨ creatinine ≤ 0) := by
    push_neg
    exact ⟨hw, hc⟩
  refine ⟨?_, ?_, ?_, ?_, ?_⟩
  · unfold calculateClearance
    rw [if_neg hcond]
    cases ageUnit <;> dsimp only <;> rw [k_selection_eq]
  · unfold calculateClearance
    rw [if_neg hcond]
    simp only [reduceCtorEq, and_false, false_and, and_true, true_and, or_false, false_or]
    norm_num
  · unfold calculateClearance
    rw [if_neg hcond]
    simp only [reduceCtorEq, and_false, false_and, and_true, true_and, or_false, false_or]
    norm_num
  · unfold calculateClearance
    rw [if_neg hcond]
    simp only [reduceCtorEq, and_false, false_and, and_true, true_and, or_false, false_or]
    norm_num
  · unfold calculateClearance
    rw [if_neg hcond]
    simp only [reduceCtorEq, eq_self_iff_true, and_false, false_and, and_true, true_and,
      or_false, false_or, true_or, or_true]
    norm_num

/-- C5 witness at weight=70, ageValue=40 years, creatinine=1. -/
theorem clearance_branch_selection_witness :
    (0:ℝ) < 70 ∧ (0:ℝ) < 1 ∧
      calculateClearance 70 18 .years 1 = .ok (max 0 ((140 - 18) * 70 / (72 * 1))) :=
  ⟨by norm_num, by norm_num,
    (clearance_branch_selection 70 40 .years 1 (by norm_num) (by norm_num)).2.1⟩

/-- C5 counterexample: with ageUnit=years and ageValue = 29/365.25 (so
ageInDays = 29 exactly), the code takes the pediatric branch, not the adult
branch the claim asserts: the result is the Schwartz value, which differs
from the Cockcroft-Gault value at this input. -/
theorem clearance_agedays29_years_counterexample :
    calculateClearance 70 (116 / 1461) .years 1 =
        .ok ((0.413:ℝ) * (50 + 116 / 1461 * 12) / 1) ∧
      (0.413:ℝ) * (50 + 116 / 1461 * 12) / 1 ≠
        max 0 ((140 - 116 / 1461) * 70 / (72 * 1)) := by
  constructor
  · unfold calculateClearance
    rw [if_neg (by norm_num)]
    simp only [reduceCtorEq, eq_self_iff_true, and_false, false_and, and_true, true_and,
      or_false, false_or, true_or, or_true]
    rw [max_eq_right (by norm_num)]
    norm_num
  · rw [max_eq_right (by norm_num)]
    norm_num

/-- C6: `calculateClearance` raises InvalidInput iff weight ≤ 0 or
creatinine ≤ 0, and `simulatePK` raises InvalidInput (its first check) iff
dose ≤ 0 or interval ≤ 0, each with its own message naming the failed
precondition. -/
theorem invalid_input_errors
    (weight ageValue : ℝ) (ageUnit : AgeUnit) (creatinine : ℝ)
    (antibiotic : Antibiotic) (dose interval weight2 crCl : ℝ)
    (lvl : Option ℝ) (lt : Option LevelType) (rt : Option ℝ) :
    (weight ≤ 0 ∨ creatinine ≤ 0 →
      calculateClearance weight ageValue ageUnit creatinine =
        .error (.invalidInput "Peso e creatinina devem ser maiores que 0.")) ∧
    (¬(weight ≤ 0 ∨ creatinine ≤ 0) →
      ∃ v, calculateClearance weight ageValue ageUnit creatinine = .ok v) ∧
    (dose ≤ 0 ∨ interval ≤ 0 →
      simulatePK antibiotic dose interval weight2 crCl lvl lt rt =
        .error (.invalidInput "Dose e intervalo devem ser maiores que 0.")) ∧
    (¬(dose ≤ 0 ∨ interval ≤ 0) →
      ∀ m : String, simulatePK antibiotic dose interval weight2 crCl lvl lt rt ≠
        .error (.invalidInput m)) := by
  refine ⟨?_, ?_, ?_, ?_⟩
  · intro h
    unfold calculateClearance
    rw [if_pos h]
  · intro h
    unfold calculateClearance
    rw [if_neg h]
    exact ⟨_, rfl⟩
  · intro h
    unfold simulatePK
    rw [if_pos h]
  · intro h m
    unfold simulatePK
    rw [if_neg h]
    cases antibiotic <;> simp [pkSwitch]

/-- C6 witness: the two errors at weight=0 resp. dose=0, and the no-error
cases at positive inputs. -/
theorem invalid_input_errors_witness :
    calculateClearance 0 40 .years 1 =
        .error (.invalidInput "Peso e creatinina devem ser maiores que 0.") ∧
      (∃ v, calculateClearance 70 40 .years 1 = .ok v) ∧
      simulatePK .gentamicin 0 8 70 100 none none none =
        .error (.invalidInput "Dose e intervalo devem ser maiores que 0.") ∧
      ∀ m : String, simulatePK .gentamicin 500 8 70 100 none none none ≠
        .error (.invalidInput m) :=
  ⟨(invalid_input_errors 0 40 .years 1 .gentamicin 500 8 70 100 none none none).1
      (Or.inl le_rfl),
    (invalid_input_errors 70 40 .years 1 .gentamicin 500 8 70 100 none none none).2.1
      (by push_neg; norm_num),
    (invalid_input_errors 70 40 .years 1 .gentamicin 0 8 70 100 none none none).2.2.1
      (Or.inl le_rfl),
    (invalid_input_errors 70 40 .years 1 .gentamicin 500 8 70 100 none none none).2.2.2
      (by push_neg; norm_num)⟩

/-- C7 (amended): the curve samples every 0.5 h starting from 0, with
ceil(interval×2) samples, and the base timePoints are strictly ascending;
concentrations stay aligned one-to-one with timePoints, also after the
optional overlay point is appended; the overlay point, appended at the end,
need not preserve the ordering. -/
theorem curve_sampling_and_alignment
    (antibiotic : Antibiotic) (dose interval weight crCl : ℝ)
    (lvl : Option ℝ) (lt : Option LevelType) (rt : Option ℝ) :
    (∀ i : ℕ, (curveTimes interval)[i]? =
      if i < (⌈interval * 2⌉).toNat then some ((i : ℝ) / 2) else none) ∧
    (curveTimes interval).Pairwise (· < ·) ∧
    ((simulatePK antibiotic dose interval weight crCl none none none).toOption.map
        PKResult.timePoints =
      (simulatePK antibiotic dose interval weight crCl none none none).toOption.map
        (fun _ => curveTimes interval)) ∧
    ((simulatePK antibiotic dose interval weight crCl lvl lt rt).toOption.map
        (fun r => r.concentrations.length) =
      (simulatePK antibiotic dose interval weight crCl lvl lt rt).toOption.map
        (fun r => r.timePoints.length)) := by
  refine ⟨curveTimes_getElem interval, curveTimes_pairwise interval, ?_, ?_⟩
  · by_cases hcond : dose ≤ 0 ∨ interval ≤ 0
    · simp [simulatePK, hcond, Except.toOption]
    · cases antibiotic <;> simp [simulatePK, hcond, pkSwitch, overlay, Except.toOption]
  · by_cases hcond : dose ≤ 0 ∨ interval ≤ 0
    · simp [simulatePK, hcond, Except.toOption]
    · cases antibiotic <;>
        simp only [simulatePK, hcond, if_false, pkSwitch, Except.toOption, Option.map] <;>
        exact congrArg some (overlay_length _ _ _ _ _ _ _ (by simp))

/-- C7 counterexample: vancomycin_intermittent, dose 500, interval 2,
weight 70, crCl 100, measured level 30 of type peak.  The overlay point is
appended at time infusionTime = 1 after the last base sample 1.5, so the
returned timePoints [0, 0.5, 1, 1.5, 1] are not ascending. -/
theorem overlay_breaks_ordering_counterexample :
    (simulatePK .vancomycin_intermittent 500 2 70 100 (some 30) (some .peak)
          none).toOption.map PKResult.timePoints =
        some [0, 1/2, 1, 3/2, 1] ∧
      ¬ ([0, 1/2, 1, 3/2, 1] : List ℝ).Pairwise (· ≤ ·) := by
  constructor
  · have hceil : ((⌈(2:ℝ) * 2⌉).toNat) = 4 := by
      norm_num
      decide
    simp only [simulatePK, pkSwitch, overlay, curveTimes, hceil]
    norm_num [List.range_succ]
    exact ⟨_, rfl, rfl⟩
  · intro h
    simp only [List.pairwise_cons, List.mem_cons, List.mem_singleton, List.not_mem_nil,
      forall_eq_or_imp, forall_eq, false_implies, and_true, true_and] at h
    norm_num at h

/-- C8: with a measured level and levelType supplied, exactly one overlay
point is appended: at time infusionTime for peak, interval−0.1 for trough,
randomTime for random with randomTime ≥ 0; with levelType random and
randomTime absent or negative no point is appended and no error arises; and
the overlay never changes Cmax, Cmin, auc, half-life, status or suggestion
(nor whether an error is raised). -/
theorem measured_level_overlay
    (antibiotic : Antibiotic) (dose interval weight crCl : ℝ)
    (infusionTime l : ℝ) (tps : List ℝ) (cs : List (Option ℝ))
    (rt : Option ℝ) (hl : l ≠ 0) :
    (overlay infusionTime interval (some l) (some .peak) rt tps cs =
      (tps ++ [infusionTime], cs ++ [some l])) ∧
    (overlay infusionTime interval (some l) (some .trough) rt tps cs =
      (tps ++ [interval - 0.1], cs ++ [some l])) ∧
    (∀ t : ℝ, 0 ≤ t →
      overlay infusionTime interval (some l) (some .random) (some t) tps cs =
        (tps ++ [t], cs ++ [some l])) ∧
    (overlay infusionTime interval (some l) (some .random) none tps cs = (tps, cs)) ∧
    (∀ t : ℝ, t < 0 →
      overlay infusionTime interval (some l) (some .random) (some t) tps cs = (tps, cs)) ∧
    (∀ (lvl : Option ℝ) (lt : Option LevelType) (rt2 : Option ℝ),
      (simulatePK antibiotic dose interval weight crCl lvl lt rt2).map
          (fun r => (r.Cmax, r.Cmin, r.auc, r.t1_2, r.status, r.suggestion)) =
        (simulatePK antibiotic dose interval weight crCl none none none).map
          (fun r => (r.Cmax, r.Cmin, r.auc, r.t1_2, r.status, r.suggestion))) := by
  refine ⟨by simp [overlay, hl], by simp [overlay, hl], ?_, by simp [overlay, hl], ?_, ?_⟩
  · intro t ht
    simp [overlay, hl, ht]
  · intro t ht
    simp [overlay, hl, not_le.mpr ht]
  · intro lvl lt rt2
    by_cases hcond : dose ≤ 0 ∨ interval ≤ 0
    · simp [simulatePK, hcond]
    · cases antibiotic <;> simp [simulatePK, hcond, pkSwitch, Except.map]

/-- C8 witness: peak overlay at level 30, infusionTime 1 on a one-point
curve. -/
theorem measured_level_overlay_witness :
    (30:ℝ) ≠ 0 ∧
      overlay 1 8 (some (30:ℝ)) (some .peak) none [0] [some 2] =
        ([0, 1], [some 2, some 30]) :=
  ⟨by norm_num,
    (measured_level_overlay .gentamicin 500 8 70 100 1 30 [0] [some 2] none
      (by norm_num)).1⟩

/-- C9 (amended): for the four intermittent antibiotics the returned
half-life is 0.693/Ke — the code's three-decimal approximation of ln 2,
not ln(2)/Ke itself — formatted to 2 decimal places, the internal
computation staying full precision. -/
theorem half_life_formula
    (dose interval weight crCl : ℝ) (lvl : Option ℝ) (lt : Option LevelType)
    (rt : Option ℝ) (hd : 0 < dose) (hi : 0 < interval) :
    ((simulatePK .vancomycin_intermittent dose interval weight crCl lvl lt rt).toOption.map
        PKResult.t1_2 =
      some (toFixed2 (0.693 /
        (pkSwitch .vancomycin_intermittent dose interval weight (normCrCl crCl weight)).Ke))) ∧
    ((simulatePK .gentamicin dose interval weight crCl lvl lt rt).toOption.map
        PKResult.t1_2 =
      some (toFixed2 (0.693 /
        (pkSwitch .gentamicin dose interval weight (normCrCl crCl weight)).Ke))) ∧
    ((simulatePK .tobramycin dose interval weight crCl lvl lt rt).toOption.map
        PKResult.t1_2 =
      some (toFixed2 (0.693 /
        (pkSwitch .tobramycin dose interval weight (normCrCl crCl weight)).Ke))) ∧
    ((simulatePK .amikacin dose interval weight crCl lvl lt rt).toOption.map
        PKResult.t1_2 =
      some (toFixed2 (0.693 /
        (pkSwitch .amikacin dose interval weight (normCrCl crCl weight)).Ke))) := by
  have hcond : ¬(dose ≤ 0 ∨ interval ≤ 0) := by
    push_neg
    exact ⟨hd, hi⟩
  refine ⟨?_, ?_, ?_, ?_⟩ <;> simp [simulatePK, hcond, pkSwitch, Except.toOption]

/-- C9 witness at dose=500, interval=8, weight=70, crCl=100. -/
theorem half_life_formula_witness :
    (0:ℝ) < 500 ∧ (0:ℝ) < 8 ∧
      ((simulatePK .gentamicin (500:ℝ) 8 70 100 none none none).toOption.map
          PKResult.t1_2 =
        some (toFixed2 (0.693 /
          (pkSwitch .gentamicin (500:ℝ) 8 70 (normCrCl 100 70)).Ke))) :=
  ⟨by norm_num, by norm_num,
    (half_life_formula 500 8 70 100 none none none (by norm_num) (by norm_num)).2.1⟩

/-- C9 counterexample: at crCl = 0 the vancomycin Ke is exactly 0.0044, the
code returns 0.693/0.0044 = 157.50 after formatting, while the claimed
ln(2)/Ke formats to 157.53. -/
theorem half_life_not_ln2_counterexample :
    (simulatePK .vancomycin_intermittent 500 8 70 0 none none none).toOption.map
        PKResult.t1_2 = some (315/2 : ℝ) ∧
      toFixed2 (Real.log 2 / (normCrCl 0 70 * 0.00083 + 0.0044)) ≠ (315/2 : ℝ) := by
  have hnorm : normCrCl 0 70 = 0 := by
    norm_num [normCrCl]
  constructor
  · have hval : toFixed2 ((315:ℝ)/2) = 315/2 := by
      rw [toFixed2, show (315:ℝ)/2 * 100 = 15750 by norm_num, round_eq]
      norm_num
    simp only [simulatePK, pkSwitch, hnorm, Except.toOption]
    norm_num [hval]
  · rw [hnorm]
    have hl1 := Real.log_two_gt_d9
    have hl2 := Real.log_two_lt_d9
    have harg : Real.log 2 / ((0:ℝ) * 0.00083 + 0.0044) * 100 = Real.log 2 * 100 / 0.0044 := by
      ring
    have hfloor : ⌊Real.log 2 * 100 / 0.0044 + 1/2⌋ = 15753 := by
      rw [Int.floor_eq_iff]
      constructor
      · rw [show ((15753:ℤ):ℝ) = 15753 from by norm_num, ← sub_le_iff_le_add,
          le_div_iff (by norm_num : (0:ℝ) < 0.0044)]
        nlinarith
      · rw [div_add' _ _ _ (by norm_num : (0.0044:ℝ) ≠ 0), div_lt_iff
          (by norm_num : (0:ℝ) < 0.0044)]
        nlinarith
    rw [toFixed2, round_eq, harg, hfloor]
    norm_num

/-- C2 (code bug): for vancomycin_continuous the JavaScript variable t1_2 is
never assigned, so `simulatePK` fails with a TypeError instead of returning
a result; and for every antibiotic the concentration sample at t = 0 divides
by Vd×(1−e⁰) = 0, a non-finite value (Infinity) rather than a well-defined
finite number (shown here for gentamicin). -/
theorem continuous_crash_and_t0_nonfinite :
    simulatePK .vancomycin_continuous 2000 24 70 100 none none none =
        .error (.typeError "TypeError: toFixed of undefined") ∧
      (simulatePK .gentamicin 140 8 70 100 none none none).toOption.map
          (fun r => r.concentrations[0]?) =
        some (some none) := by
  constructor
  · have hcond : ¬((2000:ℝ) ≤ 0 ∨ (24:ℝ) ≤ 0) := by
      push_neg
      norm_num
    simp [simulatePK, hcond, pkSwitch]
  · have hcond : ¬((140:ℝ) ≤ 0 ∨ (8:ℝ) ≤ 0) := by
      push_neg
      norm_num
    have hceil : (0:ℕ) < (⌈(8:ℝ) * 2⌉).toNat := by
      norm_num
    simp only [simulatePK, hcond, if_false, pkSwitch, overlay, Except.toOption, Option.map,
      curveTimes, List.getElem?_map, List.getElem?_range hceil]
    norm_num [concAt, jsDiv]

theorem pk_formulas_match_spec_witness :
    (0:ℝ) < 70 ∧ (0:ℝ) < 500 ∧ (0:ℝ) < 8 ∧ (0:ℝ) ≤ 100 ∧
      normCrCl 100 70 = specCrCl 100 70 :=
  ⟨by norm_num, by norm_num, by norm_num, by norm_num,
    (pk_formulas_match_spec 500 8 70 100 (by norm_num) (by norm_num) (by norm_num)
      (by norm_num)).1⟩
